import Mathlib

/-!
Shallow embedding of the `nextcloud-async` client library
(`nextcloud_aio/api/loginflow.py` and `nextcloud_aio/api/ocs/groupfolders.py`).

The transport collaborator (`self.request`, `self.ocs_query`) is not part of
the repository sources; following the external-interface contract it is
modelled as a function returning an object exposing a status code and the
JSON-decoded body.  The JSON-decoded body (`response.json()`) is kept abstract
as a string payload.

Time is modelled in integer microseconds (the resolution of Python's
`datetime`), measured from `start_dt`.  Each poll request advances the clock
by a round-trip time `rtt i`; each `asyncio.sleep(1)` advances it by one
second plus a scheduler delay `slpExtra i`.  The Python expression
`(dt.datetime.now() - start_dt).seconds` is the seconds *component* of a
`timedelta` — integer seconds truncated and reduced modulo 86400 — embedded
here as `tdSeconds`.
-/

/-- A transport response: HTTP status code plus the JSON-decoded body
(what `response.json()` returns), kept abstract as a string payload. -/
structure Response where
  status_code : Nat
  body : String
deriving DecidableEq, Repr

/-- An HTTP request as issued through `self.request`. -/
structure HttpRequest where
  method : String
  url : String
  headers : List (String × String)
  data : List (String × String)
deriving DecidableEq, Repr

/-- The single request built by `login_flow_initiate`:
`POST {endpoint}/index.php/login/v2` with a `user-agent` header that defaults
to `nextcloud_aio/{__VERSION__}` and is the caller's label verbatim otherwise.
`version` stands for `__VERSION__ = version('nextcloud_aio')`, resolved from
package metadata outside these sources. -/
def login_flow_initiate_request (version endpoint : String)
    (user_agent : Option String) : HttpRequest :=
  { method := "POST"
    url := endpoint ++ "/index.php/login/v2"
    headers := [("user-agent",
      match user_agent with
      | none => "nextcloud_aio/" ++ version
      | some ua => ua)]
    data := [] }

/-- `login_flow_initiate`: issues the single initiate request and returns
`response.json()`.  The first component records the list of requests issued
(always exactly one). -/
def login_flow_initiate (respond : HttpRequest → Response)
    (version endpoint : String) (user_agent : Option String) :
    List HttpRequest × String :=
  let req := login_flow_initiate_request version endpoint user_agent
  ([req], (respond req).body)

/-- The poll request issued (repeatedly) by `login_flow_wait_confirm`:
`POST {endpoint}/index.php/login/v2/poll` with `data={'token': token}`. -/
def login_flow_poll_request (endpoint token : String) : HttpRequest :=
  { method := "POST"
    url := endpoint ++ "/index.php/login/v2/poll"
    headers := []
    data := [("token", token)] }

/-- Environment for a `login_flow_wait_confirm` run: the configured endpoint
and token, the transport's response to the i-th poll request, and the timing
behaviour (request round-trip times and sleep overshoots, in microseconds). -/
structure PollEnv where
  endpoint : String
  token : String
  respond : Nat → HttpRequest → Response
  rtt : Nat → Nat
  slpExtra : Nat → Nat

/-- The response the transport gives to the i-th poll request. -/
def PollEnv.resp (env : PollEnv) (i : Nat) : Response :=
  env.respond i (login_flow_poll_request env.endpoint env.token)

/-- Microseconds per second (Python `datetime` resolution). -/
def usPerSecond : Nat := 1000000

/-- Seconds per day: the period of the `timedelta.seconds` component. -/
def secondsPerDay : Nat := 86400

/-- `(dt.datetime.now() - start_dt).seconds` for an elapsed time of `us`
microseconds: whole seconds, truncated, reduced modulo one day (it is the
seconds *component* of the normalised `timedelta`, not the total). -/
def tdSeconds (us : Nat) : Nat := us / usPerSecond % secondsPerDay

/-- The local state of `login_flow_wait_confirm`: the last `response`, the
last sampled `running_time`, plus instrumentation — how many poll requests
were issued, how many sleeps were performed, and the clock `now`
(microseconds since `start_dt`). -/
structure LoopState where
  response : Response
  running_time : Nat
  reqCount : Nat
  slpCount : Nat
  now : Nat
deriving DecidableEq, Repr

/-- State after the code before the `while` loop: `running_time = 0` and one
poll request already issued (the initial immediate attempt), no sleep yet. -/
def initState (env : PollEnv) : LoopState :=
  { response := env.resp 0
    running_time := 0
    reqCount := 1
    slpCount := 0
    now := env.rtt 0 }

/-- One iteration of the `while` body, in source order: issue another poll
request, recompute `running_time` from the original start, then
`await asyncio.sleep(1)`. -/
def loopIter (env : PollEnv) (s : LoopState) : LoopState :=
  let t := s.now + env.rtt s.reqCount
  { response := env.resp s.reqCount
    running_time := tdSeconds t
    reqCount := s.reqCount + 1
    slpCount := s.slpCount + 1
    now := t + usPerSecond + env.slpExtra s.slpCount }

/-- The `while` condition: `response.status_code == 404 and running_time < timeout`.
`timeout` is a Python `int`, embedded as `Int`. -/
def loopCond (timeout : Int) (s : LoopState) : Bool :=
  s.response.status_code == 404 && (s.running_time : Int) < timeout

/-- The `while` loop, with explicit fuel; `none` means the fuel was exhausted
while the condition still held (in particular, a run that diverges returns
`none` for every fuel). -/
def pollLoop (env : PollEnv) (timeout : Int) : Nat → LoopState → Option LoopState
  | 0, s => if loopCond timeout s then none else some s
  | fuel+1, s =>
    if loopCond timeout s then pollLoop env timeout fuel (loopIter env s)
    else some s

/-- Result of `login_flow_wait_confirm`: either the
`NextCloudLoginFlowTimeout` exception or the JSON-decoded success body. -/
inductive FlowOutcome where
  | timedOut
  | success (body : String)
deriving DecidableEq, Repr

/-- `login_flow_wait_confirm`: run the poll loop, then raise the timeout
error when the last response is still a 404, otherwise return
`response.json()`. -/
def login_flow_wait_confirm (env : PollEnv) (timeout : Int) (fuel : Nat) :
    Option FlowOutcome :=
  (pollLoop env timeout fuel (initState env)).map fun s =>
    if s.response.status_code == 404 then .timedOut
    else .success s.response.body

/-- The loop state after `k` iterations of the `while` body (the trace of the
run, independent of where the loop actually stops). -/
def stateAfter (env : PollEnv) : Nat → LoopState
  | 0 => initState env
  | k+1 => loopIter env (stateAfter env k)

/-- Total round-trip time of requests `0 .. j`. -/
def rttTotal (env : PollEnv) : Nat → Nat
  | 0 => env.rtt 0
  | j+1 => rttTotal env j + env.rtt (j+1)

/-- Total duration of the first `k` sleeps (one second plus scheduler delay
each). -/
def sleepTotal (env : PollEnv) : Nat → Nat
  | 0 => 0
  | k+1 => sleepTotal env k + (usPerSecond + env.slpExtra k)

/-- Elapsed microseconds at the moment the request of index `j` completes:
all round-trips up to and including `j` plus the `j - 1` completed sleeps
(request `0` is the initial attempt; request `j ≥ 1` is issued by iteration
`j`, whose preceding iterations `1 .. j-1` each slept once). -/
def elapsedAtReq (env : PollEnv) (j : Nat) : Nat :=
  rttTotal env j + sleepTotal env (j - 1)

/-- Permission bit flags of the `groupfolders` app (Python `IntFlag`). -/
inductive Permissions where
  | read
  | update
  | create
  | delete
  | share
deriving DecidableEq, Repr, Fintype

/-- The integer value of each flag. -/
def Permissions.value : Permissions → Nat
  | .read => 1
  | .update => 2
  | .create => 4
  | .delete => 8
  | .share => 16

/-- The integer value of an `IntFlag` combination, which Python reports as
the sum of the distinct member values. -/
def Permissions.serialize (s : Finset Permissions) : Nat :=
  s.sum Permissions.value

/-- A JSON scalar as used in request bodies. -/
inductive JVal where
  | s (v : String)
  | i (v : Int)
  | b (v : Bool)
deriving DecidableEq, Repr

/-- A structured request as issued through `self.ocs_query`. -/
structure OcsQuery where
  method : String
  sub : String
  data : List (String × JVal)
deriving DecidableEq, Repr

namespace GroupFolderManager

/-- `GET /apps/groupfolders/folders`. -/
def get_all_group_folders : OcsQuery :=
  { method := "GET", sub := "/apps/groupfolders/folders", data := [] }

/-- `POST /apps/groupfolders/folders` with `{'mountpoint': path}`. -/
def create_group_folder (path : String) : OcsQuery :=
  { method := "POST", sub := "/apps/groupfolders/folders"
    data := [("mountpoint", .s path)] }

/-- `GET /apps/groupfolders/folders/{folder_id}`. -/
def get_group_folder (folder_id : Int) : OcsQuery :=
  { method := "GET"
    sub := "/apps/groupfolders/folders/" ++ toString folder_id
    data := [] }

/-- `DELETE /apps/groupfolders/folders/{folder_id}`. -/
def remove_group_folder (folder_id : Int) : OcsQuery :=
  { method := "DELETE"
    sub := "/apps/groupfolders/folders/" ++ toString folder_id
    data := [] }

/-- `POST /apps/groupfolders/folders/{folder_id}/groups` with `{'group': group_id}`. -/
def add_group_to_group_folder (group_id : String) (folder_id : Int) : OcsQuery :=
  { method := "POST"
    sub := "/apps/groupfolders/folders/" ++ toString folder_id ++ "/groups"
    data := [("group", .s group_id)] }

/-- `DELETE /apps/groupfolders/folders/{folder_id}/groups/{group_id}`. -/
def remove_group_from_group_folder (group_id : String) (folder_id : Int) : OcsQuery :=
  { method := "DELETE"
    sub := "/apps/groupfolders/folders/" ++ toString folder_id
      ++ "/groups/" ++ group_id
    data := [] }

/-- `__advanced_permissions`: `POST .../acl` with `{'acl': 1 if enable else 0}`. -/
def advanced_permissions (folder_id : Int) (enable : Bool) : OcsQuery :=
  { method := "POST"
    sub := "/apps/groupfolders/folders/" ++ toString folder_id ++ "/acl"
    data := [("acl", .i (if enable then 1 else 0))] }

/-- Enable advanced permissions on `folder_id`. -/
def enable_group_folder_advanced_permissions (folder_id : Int) : OcsQuery :=
  advanced_permissions folder_id true

/-- Disable advanced permissions on `folder_id`. -/
def disable_group_folder_advanced_permissions (folder_id : Int) : OcsQuery :=
  advanced_permissions folder_id false

/-- `__advanced_permissions_admin`: `POST .../manageACL` with the mapping body. -/
def advanced_permissions_admin (folder_id : Int) (object_id object_type : String)
    (manage_acl : Bool) : OcsQuery :=
  { method := "POST"
    sub := "/apps/groupfolders/folders/" ++ toString folder_id ++ "/manageACL"
    data := [("mappingId", .s object_id), ("mappingType", .s object_type),
      ("manageAcl", .b manage_acl)] }

/-- Enable `object_id` as manager of advanced permissions. -/
def add_group_folder_advanced_permissions (folder_id : Int)
    (object_id object_type : String) : OcsQuery :=
  advanced_permissions_admin folder_id object_id object_type true

/-- Disable `object_id` as manager of advanced permissions. -/
def remove_group_folder_advanced_permissions (folder_id : Int)
    (object_id object_type : String) : OcsQuery :=
  advanced_permissions_admin folder_id object_id object_type false

/-- `POST .../groups/{group_id}` with `{'permissions': permissions.value}`;
`permissions` is the integer value of the `Permissions` flag combination. -/
def set_group_folder_permissions (folder_id : Int) (group_id : String)
    (permissions : Nat) : OcsQuery :=
  { method := "POST"
    sub := "/apps/groupfolders/folders/" ++ toString folder_id
      ++ "/groups/" ++ group_id
    data := [("permissions", .i (permissions : Int))] }

/-- `POST .../quota` with `{'quota': quota}` (bytes, `-3` for unlimited). -/
def set_group_folder_quota (folder_id : Int) (quota : Int) : OcsQuery :=
  { method := "POST"
    sub := "/apps/groupfolders/folders/" ++ toString folder_id ++ "/quota"
    data := [("quota", .i quota)] }

/-- `POST .../mountpoint` with `{'mountpoint': mountpoint}`. -/
def rename_group_folder (folder_id : Int) (mountpoint : String) : OcsQuery :=
  { method := "POST"
    sub := "/apps/groupfolders/folders/" ++ toString folder_id ++ "/mountpoint"
    data := [("mountpoint", .s mountpoint)] }

end GroupFolderManager

/-! ### Trace lemmas for the polling loop -/

theorem stateAfter_reqCount (env : PollEnv) (k : Nat) :
    (stateAfter env k).reqCount = k + 1 := by
  induction k with
  | zero => rfl
  | succ n ih => simp [stateAfter, loopIter, ih]

theorem stateAfter_slpCount (env : PollEnv) (k : Nat) :
    (stateAfter env k).slpCount = k := by
  induction k with
  | zero => rfl
  | succ n ih => simp [stateAfter, loopIter, ih]

theorem stateAfter_response (env : PollEnv) (k : Nat) :
    (stateAfter env k).response = env.resp k := by
  cases k with
  | zero => rfl
  | succ n =>
    show (loopIter env (stateAfter env n)).response = _
    simp [loopIter, stateAfter_reqCount]

/-- Closed form of the loop trace: iteration `k+1` issues request `k+1`, then
samples `running_time` as the `timedelta.seconds` of the elapsed time at that
request's completion (the following sleep is not yet included), then sleeps
one second plus scheduler delay. -/
theorem stateAfter_closed (env : PollEnv) (k : Nat) :
    stateAfter env (k+1) =
      { response := env.resp (k+1)
        running_time := tdSeconds (elapsedAtReq env (k+1))
        reqCount := k + 2
        slpCount := k + 1
        now := elapsedAtReq env (k+1) + usPerSecond + env.slpExtra k } := by
  induction k with
  | zero => rfl
  | succ n ih =>
    have harg : elapsedAtReq env (n+1) + usPerSecond + env.slpExtra n
        + env.rtt (n+2) = elapsedAtReq env (n+2) := by
      have e1 : elapsedAtReq env (n+1) = rttTotal env (n+1) + sleepTotal env n := rfl
      have e2 : elapsedAtReq env (n+2) = rttTotal env (n+1) + env.rtt (n+2)
          + (sleepTotal env n + (usPerSecond + env.slpExtra n)) := rfl
      omega
    show loopIter env (stateAfter env (n+1)) = _
    rw [ih, ← harg]
    rfl

theorem stateAfter_running_time_lt (env : PollEnv) (k : Nat) :
    (stateAfter env k).running_time < secondsPerDay := by
  cases k with
  | zero =>
    show (0 : Nat) < secondsPerDay
    decide
  | succ n =>
    rw [stateAfter_closed]
    exact Nat.mod_lt _ (by decide)

/-- If the loop condition holds along the whole trace, the loop diverges:
every fuel is exhausted. -/
theorem pollLoop_none_of_cond (env : PollEnv) (T : Int)
    (h : ∀ k, loopCond T (stateAfter env k) = true) :
    ∀ fuel k, pollLoop env T fuel (stateAfter env k) = none := by
  intro fuel
  induction fuel with
  | zero => intro k; simp [pollLoop, h k]
  | succ n ih =>
    intro k
    have : pollLoop env T (n+1) (stateAfter env k)
        = pollLoop env T n (stateAfter env (k+1)) := by
      simp [pollLoop, h k, stateAfter]
    rw [this]
    exact ih (k+1)

/-- If the loop condition holds strictly before step `k` and fails at step
`k`, the loop exits with the state after `k` iterations (given enough fuel). -/
theorem pollLoop_exits (env : PollEnv) (T : Int) (k : Nat)
    (hk : ∀ j, j < k → loopCond T (stateAfter env j) = true)
    (hstop : loopCond T (stateAfter env k) = false) :
    ∀ fuel i, i ≤ k → k - i ≤ fuel →
      pollLoop env T fuel (stateAfter env i) = some (stateAfter env k) := by
  intro fuel
  induction fuel with
  | zero =>
    intro i hik hfi
    have hi : i = k := by omega
    subst hi
    simp [pollLoop, hstop]
  | succ n ih =>
    intro i hik hfi
    rcases Nat.eq_or_lt_of_le hik with hi | hi
    · subst hi
      simp [pollLoop, hstop]
    · have hc := hk i hi
      have : pollLoop env T (n+1) (stateAfter env i)
          = pollLoop env T n (stateAfter env (i+1)) := by
        simp [pollLoop, hc, stateAfter]
      rw [this]
      exact ih (i+1) (by omega) (by omega)

theorem rttTotal_zero (env : PollEnv) (hrtt : ∀ i, env.rtt i = 0) (j : Nat) :
    rttTotal env j = 0 := by
  induction j with
  | zero => simp [rttTotal, hrtt]
  | succ n ih => simp [rttTotal, hrtt, ih]

theorem sleepTotal_ideal (env : PollEnv) (hslp : ∀ i, env.slpExtra i = 0)
    (k : Nat) : sleepTotal env k = k * usPerSecond := by
  induction k with
  | zero => rfl
  | succ n ih => simp [sleepTotal, hslp, ih]; ring

/-- With instantaneous requests and exact one-second sleeps, the elapsed time
at request `j` is `j - 1` whole seconds. -/
theorem elapsedAtReq_ideal (env : PollEnv)
    (hrtt : ∀ i, env.rtt i = 0) (hslp : ∀ i, env.slpExtra i = 0) (j : Nat) :
    elapsedAtReq env j = (j - 1) * usPerSecond := by
  simp [elapsedAtReq, rttTotal_zero env hrtt, sleepTotal_ideal env hslp]

theorem tdSeconds_mul (n : Nat) : tdSeconds (n * usPerSecond) = n % secondsPerDay := by
  simp [tdSeconds, Nat.mul_div_cancel _ (by decide : 0 < usPerSecond)]

/-! ### Concrete transports used as witnesses and counterexamples -/

/-- A transport that always answers 404 ("still pending"), instantly, with
exact one-second sleeps. -/
def env404 : PollEnv :=
  { endpoint := "https://cloud.example.com"
    token := "tok"
    respond := fun _ _ => { status_code := 404, body := "pending" }
    rtt := fun _ => 0
    slpExtra := fun _ => 0 }

/-- A transport that always answers 500 with an error body. -/
def env500 : PollEnv :=
  { endpoint := "https://cloud.example.com"
    token := "tok"
    respond := fun _ _ => { status_code := 500, body := "errbody" }
    rtt := fun _ => 0
    slpExtra := fun _ => 0 }

/-- A transport that answers 200 with the credential body at once. -/
def env200 : PollEnv :=
  { endpoint := "https://cloud.example.com"
    token := "tok"
    respond := fun _ _ => { status_code := 200, body := "cred" }
    rtt := fun _ => 0
    slpExtra := fun _ => 0 }

/-- A transport that answers 404 twice and then 200 with the credential. -/
def env404then200 : PollEnv :=
  { endpoint := "https://cloud.example.com"
    token := "tok"
    respond := fun i _ =>
      if i < 2 then { status_code := 404, body := "pending" }
      else { status_code := 200, body := "cred" }
    rtt := fun _ => 0
    slpExtra := fun _ => 0 }

/-- A transport that always answers 404 and whose second poll request takes
86401 seconds (one day plus one second) to return. -/
def envC4 : PollEnv :=
  { endpoint := "https://cloud.example.com"
    token := "tok"
    respond := fun _ _ => { status_code := 404, body := "pending" }
    rtt := fun i => if i = 1 then 86401 * usPerSecond else 0
    slpExtra := fun _ => 0 }

/-! ### Claim theorems: resource catalog and permissions -/

/-- C8: `login_flow_initiate` issues exactly one POST request to
`{endpoint}/index.php/login/v2` and returns its parsed body; with no
`user_agent` the header is the library string `nextcloud_aio/` plus the
version, and with a label it is the label verbatim. -/
theorem initiate_request_shape (respond : HttpRequest → Response)
    (version endpoint : String) :
    (∀ ua, (login_flow_initiate respond version endpoint ua).1
        = [login_flow_initiate_request version endpoint ua] ∧
      (login_flow_initiate respond version endpoint ua).1.length = 1 ∧
      (login_flow_initiate respond version endpoint ua).2
        = (respond (login_flow_initiate_request version endpoint ua)).body) ∧
    login_flow_initiate_request version endpoint none
      = { method := "POST", url := endpoint ++ "/index.php/login/v2"
          headers := [("user-agent", "nextcloud_aio/" ++ version)]
          data := [] } ∧
    (∀ ua, login_flow_initiate_request version endpoint (some ua)
      = { method := "POST", url := endpoint ++ "/index.php/login/v2"
          headers := [("user-agent", ua)], data := [] }) :=
  ⟨fun _ => ⟨rfl, rfl, rfl⟩, rfl, fun _ => rfl⟩

/-- C9: every `GroupFolderManager` operation issues exactly the structured
request (method, interpolated path, body fields) of the spec's catalog; in
particular `set_group_folder_quota 5 (-3)` posts `{quota: -3}` to
`/apps/groupfolders/folders/5/quota` and the ACL toggle posts `{acl: 1}` to
enable and `{acl: 0}` to disable. -/
theorem resource_catalog_request_shapes :
    GroupFolderManager.get_all_group_folders
      = { method := "GET", sub := "/apps/groupfolders/folders", data := [] } ∧
    (∀ path, GroupFolderManager.create_group_folder path
      = { method := "POST", sub := "/apps/groupfolders/folders"
          data := [("mountpoint", .s path)] }) ∧
    (∀ fid, GroupFolderManager.get_group_folder fid
      = { method := "GET"
          sub := "/apps/groupfolders/folders/" ++ toString fid, data := [] }) ∧
    (∀ fid, GroupFolderManager.remove_group_folder fid
      = { method := "DELETE"
          sub := "/apps/groupfolders/folders/" ++ toString fid, data := [] }) ∧
    (∀ gid fid, GroupFolderManager.add_group_to_group_folder gid fid
      = { method := "POST"
          sub := "/apps/groupfolders/folders/" ++ toString fid ++ "/groups"
          data := [("group", .s gid)] }) ∧
    (∀ gid fid, GroupFolderManager.remove_group_from_group_folder gid fid
      = { method := "DELETE"
          sub := "/apps/groupfolders/folders/" ++ toString fid
            ++ "/groups/" ++ gid
          data := [] }) ∧
    (∀ fid, GroupFolderManager.enable_group_folder_advanced_permissions fid
      = { method := "POST"
          sub := "/apps/groupfolders/folders/" ++ toString fid ++ "/acl"
          data := [("acl", .i 1)] }) ∧
    (∀ fid, GroupFolderManager.disable_group_folder_advanced_permissions fid
      = { method := "POST"
          sub := "/apps/groupfolders/folders/" ++ toString fid ++ "/acl"
          data := [("acl", .i 0)] }) ∧
    (∀ fid oid otype,
      GroupFolderManager.add_group_folder_advanced_permissions fid oid otype
      = { method := "POST"
          sub := "/apps/groupfolders/folders/" ++ toString fid ++ "/manageACL"
          data := [("mappingId", .s oid), ("mappingType", .s otype),
            ("manageAcl", .b true)] }) ∧
    (∀ fid oid otype,
      GroupFolderManager.remove_group_folder_advanced_permissions fid oid otype
      = { method := "POST"
          sub := "/apps/groupfolders/folders/" ++ toString fid ++ "/manageACL"
          data := [("mappingId", .s oid), ("mappingType", .s otype),
            ("manageAcl", .b false)] }) ∧
    (∀ fid gid pv, GroupFolderManager.set_group_folder_permissions fid gid pv
      = { method := "POST"
          sub := "/apps/groupfolders/folders/" ++ toString fid
            ++ "/groups/" ++ gid
          data := [("permissions", .i (pv : Int))] }) ∧
    (∀ fid q, GroupFolderManager.set_group_folder_quota fid q
      = { method := "POST"
          sub := "/apps/groupfolders/folders/" ++ toString fid ++ "/quota"
          data := [("quota", .i q)] }) ∧
    GroupFolderManager.set_group_folder_quota 5 (-3)
      = { method := "POST", sub := "/apps/groupfolders/folders/5/quota"
          data := [("quota", .i (-3))] } ∧
    (∀ fid mp, GroupFolderManager.rename_group_folder fid mp
      = { method := "POST"
          sub := "/apps/groupfolders/folders/" ++ toString fid ++ "/mountpoint"
          data := [("mountpoint", .s mp)] }) :=
  ⟨rfl, fun _ => rfl, fun _ => rfl, fun _ => rfl, fun _ _ => rfl,
    fun _ _ => rfl, fun _ => rfl, fun _ => rfl, fun _ _ _ => rfl,
    fun _ _ _ => rfl, fun _ _ _ => rfl, fun _ _ => rfl, by decide,
    fun _ _ => rfl⟩

theorem serialize_lor : ∀ s t : Finset Permissions,
    Nat.lor (Permissions.serialize s) (Permissions.serialize t)
      = Permissions.serialize (s ∪ t) := by decide

/-- C10: the flag values are read=1, update=2, create=4, delete=8, share=16;
bitwise OR of serialized flag sets is serialization of the set union (hence
commutative, associative, idempotent on flag combinations); serialization is
the sum of the distinct member values; and read|update is 3. -/
theorem permissions_flag_algebra :
    (Permissions.value .read = 1 ∧ Permissions.value .update = 2 ∧
      Permissions.value .create = 4 ∧ Permissions.value .delete = 8 ∧
      Permissions.value .share = 16) ∧
    (∀ s t : Finset Permissions,
      Nat.lor (Permissions.serialize s) (Permissions.serialize t)
        = Permissions.serialize (s ∪ t)) ∧
    (∀ s t : Finset Permissions,
      Nat.lor (Permissions.serialize s) (Permissions.serialize t)
        = Nat.lor (Permissions.serialize t) (Permissions.serialize s)) ∧
    (∀ s t u : Finset Permissions,
      Nat.lor (Nat.lor (Permissions.serialize s) (Permissions.serialize t))
          (Permissions.serialize u)
        = Nat.lor (Permissions.serialize s)
            (Nat.lor (Permissions.serialize t) (Permissions.serialize u))) ∧
    (∀ s : Finset Permissions,
      Nat.lor (Permissions.serialize s) (Permissions.serialize s)
        = Permissions.serialize s) ∧
    (∀ s : Finset Permissions, Permissions.serialize s = s.sum Permissions.value) ∧
    Nat.lor (Permissions.value .read) (Permissions.value .update) = 3 := by
  refine ⟨by decide, serialize_lor, ?_, ?_, ?_, fun _ => rfl, by decide⟩
  · intro s t
    rw [serialize_lor, serialize_lor, Finset.union_comm]
  · intro s t u
    rw [serialize_lor, serialize_lor, serialize_lor, serialize_lor,
      Finset.union_assoc]
  · intro s
    rw [serialize_lor, Finset.union_self]

/-! ### Claim theorems: the polling loop -/

/-- C5: the first poll request is issued immediately — before any sleep —
and when its response is not a 404 the parsed body is returned with zero
sleeps performed (the loop body never runs). -/
theorem wait_confirm_immediate_first_poll (env : PollEnv) (T : Int)
    (fuel : Nat) (h : (env.resp 0).status_code ≠ 404) :
    login_flow_wait_confirm env T fuel
        = some (.success ((env.resp 0).body)) ∧
    pollLoop env T fuel (initState env) = some (initState env) ∧
    (initState env).reqCount = 1 ∧
    (initState env).slpCount = 0 ∧
    (initState env).now = env.rtt 0 := by
  have hc : loopCond T (initState env) = false := by
    simp [loopCond, initState, h]
  have hp : pollLoop env T fuel (initState env) = some (initState env) := by
    cases fuel <;> simp [pollLoop, hc]
  refine ⟨?_, hp, rfl, rfl, rfl⟩
  unfold login_flow_wait_confirm
  rw [hp]
  simp [initState, h]

theorem wait_confirm_immediate_first_poll_witness :
    (env200.resp 0).status_code ≠ 404 ∧
    (login_flow_wait_confirm env200 60 5
        = some (.success ((env200.resp 0).body)) ∧
      pollLoop env200 60 5 (initState env200) = some (initState env200) ∧
      (initState env200).reqCount = 1 ∧
      (initState env200).slpCount = 0 ∧
      (initState env200).now = env200.rtt 0) :=
  ⟨by decide, wait_confirm_immediate_first_poll env200 60 5 (by decide)⟩

/-- C6: on every terminating run the timeout error is raised exactly when
the last poll response has status 404; a run whose last response is non-404
returns the parsed body as success, even when `running_time` has already
reached the timeout. -/
theorem wait_confirm_timeout_iff_last_404 (env : PollEnv) (T : Int)
    (fuel : Nat) (s : LoopState)
    (hp : pollLoop env T fuel (initState env) = some s) :
    (login_flow_wait_confirm env T fuel = some .timedOut
      ↔ s.response.status_code = 404) ∧
    (s.response.status_code ≠ 404 →
      login_flow_wait_confirm env T fuel = some (.success s.response.body)) := by
  unfold login_flow_wait_confirm
  rw [hp]
  constructor
  · constructor
    · intro h
      by_contra hne
      simp [hne] at h
    · intro h
      simp [h]
  · intro h
    simp [h]

/-- Witness for C6 at a run where both exit conditions hold at once: the
third response is a 200 and `running_time = 1 ≥ timeout = 1`; the run still
succeeds. -/
theorem wait_confirm_timeout_iff_last_404_witness :
    pollLoop env404then200 1 10 (initState env404then200)
        = some { response := { status_code := 200, body := "cred" }
                 running_time := 1, reqCount := 3, slpCount := 2
                 now := 2000000 } ∧
    (1 : Nat) ≤ 1 ∧
    ((login_flow_wait_confirm env404then200 1 10 = some .timedOut
        ↔ (200 : Nat) = 404) ∧
      ((200 : Nat) ≠ 404 →
        login_flow_wait_confirm env404then200 1 10
          = some (.success "cred"))) :=
  ⟨by decide, by decide,
    wait_confirm_timeout_iff_last_404 env404then200 1 10
      { response := { status_code := 200, body := "cred" }
        running_time := 1, reqCount := 3, slpCount := 2, now := 2000000 }
      (by decide)⟩

/-- C3 counterexample: a 500 response — non-2xx and not 404 — on the first
poll is returned as the parsed success body, not raised as an error. -/
theorem wait_confirm_error_status_returned_as_success :
    login_flow_wait_confirm env500 60 5 = some (.success "errbody") := by decide

/-- C3 (amended): a poll response with any status other than 404 — non-2xx
statuses included — ends the polling and its parsed body is returned to the
caller as the success result; no error carrying the status code is raised.
Only the 404 pending signal satisfies the retry condition. -/
theorem wait_confirm_non404_surfaced_as_body (env : PollEnv) (T : Int)
    (fuel : Nat) (s : LoopState)
    (hp : pollLoop env T fuel (initState env) = some s)
    (hn : s.response.status_code ≠ 404) :
    login_flow_wait_confirm env T fuel = some (.success s.response.body) ∧
    (∀ s2 : LoopState, loopCond T s2 = true → s2.response.status_code = 404) := by
  constructor
  · unfold login_flow_wait_confirm
    rw [hp]
    simp [hn]
  · intro s2 h2
    simp [loopCond] at h2
    exact h2.1

theorem wait_confirm_non404_surfaced_as_body_witness :
    pollLoop env500 60 5 (initState env500) = some (initState env500) ∧
    (initState env500).response.status_code ≠ 404 ∧
    (login_flow_wait_confirm env500 60 5
        = some (.success (initState env500).response.body) ∧
      (∀ s2 : LoopState, loopCond 60 s2 = true →
        s2.response.status_code = 404)) :=
  ⟨by decide, by decide,
    wait_confirm_non404_surfaced_as_body env500 60 5 (initState env500)
      (by decide) (by decide)⟩

/-- C4 counterexample: with the second poll request taking 86401 seconds,
the recorded `running_time` after that request is `1`, while the
whole-second truncation of the elapsed time is `86401`: `timedelta.seconds`
also discards whole days, not only fractional seconds. -/
theorem running_time_not_whole_second_truncation :
    (stateAfter envC4 1).running_time = 1 ∧
    elapsedAtReq envC4 1 / usPerSecond = 86401 ∧
    (stateAfter envC4 1).running_time ≠ elapsedAtReq envC4 1 / usPerSecond := by
  decide

/-- C4 (amended): each loop iteration, in order, issues the next poll
request, recomputes `running_time` from the original start as the
`timedelta` seconds component of the elapsed time at that request's
completion — whole-second truncation reduced modulo 86400, the following
sleep not yet included — then sleeps for 1 second (plus any scheduler
delay), and only then is the loop condition re-evaluated, comparing that
integer against `timeout`. -/
theorem wait_confirm_loop_step_order :
    (∀ (env : PollEnv) (k : Nat),
      stateAfter env (k+1) =
        { response := env.resp (k+1)
          running_time := tdSeconds (elapsedAtReq env (k+1))
          reqCount := k + 2
          slpCount := k + 1
          now := elapsedAtReq env (k+1) + usPerSecond + env.slpExtra k }) ∧
    (∀ us : Nat, tdSeconds us = us / usPerSecond % secondsPerDay) ∧
    (∀ (T : Int) (s : LoopState),
      loopCond T s = true
        ↔ (s.response.status_code = 404 ∧ (s.running_time : Int) < T)) := by
  refine ⟨stateAfter_closed, fun _ => rfl, fun T s => ?_⟩
  simp [loopCond]

/-- Against an always-404 transport, the loop condition holds at every point
of the trace whenever `timeout ≥ 86400`: `running_time`, being a
`timedelta.seconds` component, never reaches 86400. -/
theorem loopCond_env404 (T : Int) (hT : (86400 : Int) ≤ T) (k : Nat) :
    loopCond T (stateAfter env404 k) = true := by
  have h1 : (stateAfter env404 k).response = env404.resp k :=
    stateAfter_response _ _
  have h2 : (stateAfter env404 k).running_time < 86400 :=
    stateAfter_running_time_lt env404 k
  have hresp : env404.resp k = { status_code := 404, body := "pending" } := rfl
  simp only [loopCond, h1, hresp, beq_self_eq_true, Bool.true_and,
    decide_eq_true_eq]
  omega

/-- C1 at its failing input: with `timeout = 86400` and a transport that
always answers 404 instantly, `login_flow_wait_confirm` never terminates —
no fuel suffices — so no `LoginFlowTimeout` is ever raised.
`(dt.datetime.now() - start_dt).seconds` is the seconds component of the
`timedelta` and wraps every 24 hours, so `running_time < 86400 ≤ timeout`
holds forever. -/
theorem login_flow_timeout_day_wrap :
    ∀ fuel, login_flow_wait_confirm env404 86400 fuel = none := by
  intro fuel
  have h := pollLoop_none_of_cond env404 86400
    (loopCond_env404 86400 (by norm_num)) fuel 0
  unfold login_flow_wait_confirm
  rw [show initState env404 = stateAfter env404 0 from rfl, h]
  rfl

/-- C7 at its failing input: with `timeout = 90000` and an always-404
transport the polling loop is unbounded: every fuel is exhausted, the run
never terminates. -/
theorem wait_confirm_unbounded_loop_large_timeout :
    ∀ fuel, login_flow_wait_confirm env404 90000 fuel = none := by
  intro fuel
  have h := pollLoop_none_of_cond env404 90000
    (loopCond_env404 90000 (by norm_num)) fuel 0
  unfold login_flow_wait_confirm
  rw [show initState env404 = stateAfter env404 0 from rfl, h]
  rfl

/-- C2: if the `N`-th poll attempt (1-indexed) is the first non-404 response
and the elapsed time stays below `timeout` until then (with instantaneous
requests and exact one-second sleeps the elapsed time at the `N`-th request
is `N - 2` seconds, so `N - 2 < timeout`), the run returns the parsed body
of that `N`-th response, having issued exactly `N` poll requests and none
after it. -/
theorem wait_confirm_success_exact_requests (env : PollEnv) (N : Nat)
    (T : Int) (fuel : Nat) (hN : 1 ≤ N)
    (hrtt : ∀ i, env.rtt i = 0) (hslp : ∀ i, env.slpExtra i = 0)
    (h404 : ∀ i, i < N - 1 → (env.resp i).status_code = 404)
    (hNth : (env.resp (N-1)).status_code ≠ 404)
    (hT : (N : Int) - 2 < T) (hfuel : N - 1 ≤ fuel) :
    pollLoop env T fuel (initState env) = some (stateAfter env (N-1)) ∧
    (stateAfter env (N-1)).reqCount = N ∧
    login_flow_wait_confirm env T fuel
      = some (.success ((env.resp (N-1)).body)) := by
  have hrt : ∀ m : Nat, (stateAfter env (m+1)).running_time
      = m % secondsPerDay := by
    intro m
    rw [stateAfter_closed]
    show tdSeconds (elapsedAtReq env (m+1)) = m % secondsPerDay
    rw [elapsedAtReq_ideal env hrtt hslp, tdSeconds_mul]
    simp
  have hk : ∀ j, j < N - 1 → loopCond T (stateAfter env j) = true := by
    intro j hj
    simp [loopCond, stateAfter_response env j, h404 j hj]
    cases j with
    | zero =>
      show ((initState env).running_time : Int) < T
      show ((0 : Nat) : Int) < T
      omega
    | succ m =>
      rw [hrt m]
      have hm : m % secondsPerDay ≤ m := Nat.mod_le m secondsPerDay
      omega
  have hstop : loopCond T (stateAfter env (N-1)) = false := by
    simp [loopCond, stateAfter_response env (N-1), hNth]
  have hp : pollLoop env T fuel (initState env)
      = some (stateAfter env (N-1)) :=
    pollLoop_exits env T (N-1) hk hstop fuel 0 (by omega) (by omega)
  refine ⟨hp, ?_, ?_⟩
  · rw [stateAfter_reqCount]
    omega
  · unfold login_flow_wait_confirm
    rw [hp]
    simp [stateAfter_response env (N-1), hNth]

/-- Witness for C2 with `N = 3`: two 404s then a 200 within the timeout. -/
theorem wait_confirm_success_exact_requests_witness :
    ((1 : Nat) ≤ 3 ∧ (∀ i, env404then200.rtt i = 0) ∧
      (∀ i, env404then200.slpExtra i = 0) ∧
      (∀ i, i < 3 - 1 → (env404then200.resp i).status_code = 404) ∧
      (env404then200.resp (3-1)).status_code ≠ 404 ∧
      ((3 : Nat) : Int) - 2 < 60 ∧ (3 : Nat) - 1 ≤ 10) ∧
    (pollLoop env404then200 60 10 (initState env404then200)
        = some (stateAfter env404then200 (3-1)) ∧
      (stateAfter env404then200 (3-1)).reqCount = 3 ∧
      login_flow_wait_confirm env404then200 60 10
        = some (.success ((env404then200.resp (3-1)).body))) :=
  ⟨⟨by decide, fun _ => rfl, fun _ => rfl, by decide, by decide, by decide,
      by decide⟩,
    wait_confirm_success_exact_requests env404then200 3 60 10 (by decide)
      (fun _ => rfl) (fun _ => rfl) (by decide) (by decide) (by decide)
      (by decide)⟩
